import Mathlib

set_option maxHeartbeats 1000000
set_option maxRecDepth 4000

/-!
Verification of the tunneling-gateway data path of this repository
(protocol sniffer, the three header decoders, and the tunnel controller and
bridge state machines).  Buffers are modelled as `List Nat` (one entry per
byte); JavaScript `ArrayBuffer.slice` clamps out-of-range indices, which is
mirrored by `List.drop`/`List.take`.  `DataView.getUint16` throws when fewer
than two bytes are available; such throws are modelled as `Except.error`
results, as are the decoders' own `hasError` returns.
-/

/-- The three protocol kinds of `PROTOCOLS = ["trojan", "vless", "ss"]`. -/
inductive Proto where
  | trojan
  | vless
  | ss
deriving DecidableEq

/-- Model of `buffer.slice(a, b)` on an `ArrayBuffer`: the bytes of the
half-open range `[a, b)`, clamped to the buffer. -/
def jsSlice (l : List Nat) (a b : Nat) : List Nat :=
  (l.drop a).take (b - a)

/-- Model of `new DataView(buffer.slice(p, p + 2)).getUint16(0)`: the
big-endian 16-bit read at offset `p`; `none` models the `RangeError` that
`getUint16` throws when the clamped slice has fewer than two bytes. -/
def readU16BE (l : List Nat) (p : Nat) : Option Nat :=
  match jsSlice l p (p + 2) with
  | [a, b] => some (256 * a + b)
  | _ => none

/-- The hex digit character for `k < 16`, as produced by JavaScript
`Number.prototype.toString(16)` (lowercase). -/
def hexChar (k : Nat) : Char :=
  if k < 10 then Char.ofNat (48 + k) else Char.ofNat (87 + k)

/-- Fuel-driven positional base-16 conversion (most significant digit
first), the digit loop behind `toString(16)`. -/
def natToHexCore : Nat → Nat → List Char → List Char
  | 0, _, acc => acc
  | fuel + 1, n, acc =>
    if n < 16 then hexChar (n % 16) :: acc
    else natToHexCore fuel (n / 16) (hexChar (n % 16) :: acc)

/-- Model of `n.toString(16)` for a natural number: lowercase hex digits,
no padding. -/
def natToHex (n : Nat) : List Char :=
  natToHexCore (n + 1) n []

/-- Model of `x.toString(16).padStart(2, "0")` used by `arrayBufferToHex`. -/
def hexByte (n : Nat) : List Char :=
  if (natToHex n).length < 2 then '0' :: natToHex n else natToHex n

/-- Model of `arrayBufferToHex` (src/unnamed/part_002, `utils.js`): every
byte rendered as two lowercase hex digits, concatenated with no separator. -/
def arrayBufferToHex (bs : List Nat) : String :=
  String.mk ((bs.map hexByte).flatten)

/-- `[0-9a-f]` of the sniffer's regular expression, with the `i` flag. -/
def isHexDigitCI (c : Char) : Bool :=
  ('0' ≤ c && c ≤ '9') || ('a' ≤ c && c ≤ 'f') || ('A' ≤ c && c ≤ 'F')

/-- Model of the anchored test
`/^[0-9a-f]{8}-[0-9a-f]{4}-4[0-9a-f]{3}-[89ab][0-9a-f]{3}-[0-9a-f]{12}$/i`:
the string must be exactly 36 characters, with literal dashes at positions
8, 13, 18 and 23, the version digit `4` at position 14, a variant digit in
`[89ab]` (case-insensitive) at position 19, and hex digits elsewhere. -/
def uuidV4Test (s : String) : Bool :=
  let cs := s.data
  (cs.length == 36) &&
    (List.range 36).all (fun i =>
      let c := cs.getD i ' '
      if i = 8 ∨ i = 13 ∨ i = 18 ∨ i = 23 then c == '-'
      else if i = 14 then c == '4'
      else if i = 19 then
        (c == '8' || c == '9' || c == 'a' || c == 'b' || c == 'A' || c == 'B')
      else isHexDigitCI c)

/-- The Trojan test of `protocolSniffer` (src/unnamed/part_000 lines 10-19):
length at least 62, bytes 56/57 are CR LF, byte 58 in `{1, 3, 0x7f}` and
byte 59 in `{1, 3, 4}`.  The `getD` default 256 models JavaScript
`undefined`, which compares unequal to every byte (unreachable under the
length guard). -/
def trojanMarker (buffer : List Nat) : Bool :=
  decide (62 ≤ buffer.length) &&
    (let d := jsSlice buffer 56 60
     (d.getD 0 256 == 13) && (d.getD 1 256 == 10) &&
       ((d.getD 2 256 == 1) || (d.getD 2 256 == 3) || (d.getD 2 256 == 127)) &&
       ((d.getD 3 256 == 1) || (d.getD 3 256 == 3) || (d.getD 3 256 == 4)))

/-- Model of `protocolSniffer` (src/unnamed/part_000 lines 9-28): Trojan
marker first, then the UUID test on the hex rendering of bytes `[1, 17)`,
falling back to Shadowsocks. -/
def protocolSniffer (buffer : List Nat) : Proto :=
  if trojanMarker buffer then Proto.trojan
  else if uuidV4Test (arrayBufferToHex (jsSlice buffer 1 17)) then Proto.vless
  else Proto.ss

/-- Modelled from the spec: section 4.1 rule 2 reads "take bytes `[1..17)`
(16 bytes), render as lowercase hex grouped `8-4-4-4-12`, and match against
the UUIDv4 pattern".  The code's `arrayBufferToHex` omits the grouping
dashes; this definition performs the grouping the spec describes, so the
spec's intended test is `uuidV4Test (groupedUuidHex bytes)`. -/
def groupedUuidHex (bs : List Nat) : String :=
  let cs := (bs.map hexByte).flatten
  String.mk (cs.take 8 ++ '-' :: (cs.drop 8).take 4 ++ '-' :: (cs.drop 12).take 4
    ++ '-' :: (cs.drop 16).take 4 ++ '-' :: cs.drop 20)

/-- A first chunk carrying a well-formed (version 4, variant 8) UUID at
bytes `[1, 17)`: the VLESS scenario frame
`00 | 12 34 56 78 9a bc 4d ef 8a bc de f0 12 34 56 78 | 00 | 01 | 01 bb |
02 | 03 66 6f 6f | 50 41 59`. -/
def uuidFrame : List Nat :=
  [0x00,
   0x12, 0x34, 0x56, 0x78, 0x9a, 0xbc, 0x4d, 0xef,
   0x8a, 0xbc, 0xde, 0xf0, 0x12, 0x34, 0x56, 0x78,
   0x00, 0x01, 0x01, 0xbb, 0x02, 0x03, 0x66, 0x6f, 0x6f, 0x50, 0x41, 0x59]

/-- Failure modes of the three header decoders.  `rangeError` models a
thrown `RangeError` from an out-of-range `DataView` read; the others model
the decoders' `hasError: true` returns.  An `Option` payload is `none` when
the JavaScript value at that position was `undefined` (read past the end of
the buffer). -/
inductive DecodeErr where
  | rangeError
  | invalidAddressType (tag : Option Nat)
  | emptyAddress (tag : Nat)
  | unsupportedCommand (cmd : Option Nat)
  | invalidTrojanRequest
deriving DecidableEq

def dotSep : String := "."

def colonSep : String := ":"

/-- Model of `new Uint8Array(bytes).join(".")`: decimal renderings joined
with dots (empty string for an empty slice). -/
def ipv4String (bs : List Nat) : String :=
  String.intercalate dotSep (bs.map (fun n => Nat.repr n))

/-- Model of `new TextDecoder().decode(bytes)`, one character per byte.
This coincides with UTF-8 decoding on ASCII bytes (the only bytes the
claims evaluate) and, like the real decoder (which substitutes U+FFFD for
invalid sequences), yields the empty string exactly on the empty slice. -/
def decodeBytes (bs : List Nat) : String :=
  String.mk (bs.map (fun b => Char.ofNat b))

/-- Model of the IPv6 loop `for (i = 0; i < 8; i++)
ipv6.push(dataView.getUint16(i * 2).toString(16))` over a 16-byte slice:
`none` models the `RangeError` thrown when the clamped slice is shorter
than 16 bytes. -/
def u16Groups (bs : List Nat) : Option (List Nat) :=
  if bs.length < 16 then none
  else some ((List.range 8).map (fun i => 256 * bs.getD (2 * i) 0 + bs.getD (2 * i + 1) 0))

/-- Model of `ipv6.join(":")`. -/
def ipv6String (groups : List Nat) : String :=
  String.intercalate colonSep (groups.map (fun n => String.mk (natToHex n)))

/-- IPv6 rendering with surrounding brackets, as in the VLESS and Trojan
decoders. -/
def bracketed (s : String) : String :=
  "[" ++ s ++ "]"

/-- The successful result of `readSsHeader`. -/
structure SsHeader where
  addressRemote : String
  addressType : Nat
  portRemote : Nat
  rawClientData : List Nat
  isUDP : Bool
deriving DecidableEq

/-- The shared tail of `readSsHeader` (src/unnamed/part_000 lines 65-79):
the empty-address check, the big-endian port read at
`addressValueIndex + addressLength`, the residual
`ssBuffer.slice(portIndex + 2)` and `isUDP = (portRemote === 53)`. -/
def ssFinish (ssBuffer : List Nat) (addressType addressValueIndex addressLength : Nat)
    (addressValue : String) : Except DecodeErr SsHeader :=
  if addressValue = "" then Except.error (DecodeErr.emptyAddress addressType)
  else
    match readU16BE ssBuffer (addressValueIndex + addressLength) with
    | none => Except.error DecodeErr.rangeError
    | some portRemote =>
      Except.ok
        { addressRemote := addressValue
          addressType := addressType
          portRemote := portRemote
          rawClientData := ssBuffer.drop (addressValueIndex + addressLength + 2)
          isUDP := decide (portRemote = 53) }

/-- Model of `readSsHeader` (src/unnamed/part_000 lines 35-80).  Reading
the tag of an empty buffer (`view.getUint8(0)`) throws, hence
`rangeError`.  In the domain case with no length byte, `addressLength` is
`undefined`, the decoded slice is empty and the empty-address error is
reported before any arithmetic on `undefined` matters. -/
def readSsHeader (ssBuffer : List Nat) : Except DecodeErr SsHeader :=
  match ssBuffer.head? with
  | none => Except.error DecodeErr.rangeError
  | some addressType =>
    if addressType = 1 then
      ssFinish ssBuffer 1 1 4 (ipv4String (jsSlice ssBuffer 1 5))
    else if addressType = 3 then
      match (jsSlice ssBuffer 1 2).head? with
      | none => Except.error (DecodeErr.emptyAddress 3)
      | some addressLength =>
        ssFinish ssBuffer 3 2 addressLength
          (decodeBytes (jsSlice ssBuffer 2 (2 + addressLength)))
    else if addressType = 4 then
      match u16Groups (jsSlice ssBuffer 1 17) with
      | none => Except.error DecodeErr.rangeError
      | some groups => ssFinish ssBuffer 4 1 16 (ipv6String groups)
    else Except.error (DecodeErr.invalidAddressType (some addressType))

/-- The successful result of `readFlashHeader` (VLESS); `version` is the
two-byte response prelude `new Uint8Array([version[0], 0])`. -/
structure FlashHeader where
  addressRemote : String
  addressType : Nat
  portRemote : Nat
  rawClientData : List Nat
  version : List Nat
  isUDP : Bool
deriving DecidableEq

/-- The VLESS command byte read at offset `18 + optLength`
(src/unnamed/part_000 lines 89-90); `none` when the option-length byte or
the command byte is past the end of the buffer (`undefined`, which also
makes the index arithmetic produce `NaN` and the command slice empty). -/
def flashCmd (buffer : List Nat) : Option Nat :=
  match (jsSlice buffer 17 18).head? with
  | none => none
  | some optLength => (jsSlice buffer (18 + optLength) (18 + optLength + 1)).head?

/-- The shared tail of `readFlashHeader` (src/unnamed/part_000 lines
131-143): empty-address check and the returned record, with the residual
`buffer.slice(dropIndex)` and prelude `[buffer[0], 0]` (an absent byte 0
coerces to 0). -/
def flashFinish (buffer : List Nat) (addressType dropIndex : Nat) (addressValue : String)
    (portRemote : Nat) (isUDP : Bool) : Except DecodeErr FlashHeader :=
  if addressValue = "" then Except.error (DecodeErr.emptyAddress addressType)
  else
    Except.ok
      { addressRemote := addressValue
        addressType := addressType
        portRemote := portRemote
        rawClientData := buffer.drop dropIndex
        version := [buffer.headD 0, 0]
        isUDP := isUDP }

/-- Model of `readFlashHeader` (src/unnamed/part_000 lines 87-144):
`version(1) | uuid(16) | optLen(1) | opts(optLen) | cmd(1) | port(2) |
atyp(1) | addr(var) | residual`, with address tags 1 = IPv4, 2 = Domain
(u8 length prefix), 3 = IPv6 (bracketed). -/
def readFlashHeader (buffer : List Nat) : Except DecodeErr FlashHeader :=
  match (jsSlice buffer 17 18).head? with
  | none => Except.error (DecodeErr.unsupportedCommand none)
  | some optLength =>
    match (jsSlice buffer (18 + optLength) (18 + optLength + 1)).head? with
    | none => Except.error (DecodeErr.unsupportedCommand none)
    | some cmd =>
      if cmd = 1 ∨ cmd = 2 then
        match readU16BE buffer (18 + optLength + 1) with
        | none => Except.error DecodeErr.rangeError
        | some portRemote =>
          match (jsSlice buffer (18 + optLength + 3) (18 + optLength + 4)).head? with
          | none => Except.error (DecodeErr.invalidAddressType none)
          | some addressType =>
            if addressType = 1 then
              flashFinish buffer 1 (18 + optLength + 4 + 4)
                (ipv4String (jsSlice buffer (18 + optLength + 4) (18 + optLength + 4 + 4)))
                portRemote (decide (cmd = 2))
            else if addressType = 2 then
              match (jsSlice buffer (18 + optLength + 4) (18 + optLength + 5)).head? with
              | none => Except.error (DecodeErr.emptyAddress 2)
              | some addressLength =>
                flashFinish buffer 2 (18 + optLength + 5 + addressLength)
                  (decodeBytes
                    (jsSlice buffer (18 + optLength + 5) (18 + optLength + 5 + addressLength)))
                  portRemote (decide (cmd = 2))
            else if addressType = 3 then
              match u16Groups (jsSlice buffer (18 + optLength + 4) (18 + optLength + 4 + 16)) with
              | none => Except.error DecodeErr.rangeError
              | some groups =>
                flashFinish buffer 3 (18 + optLength + 4 + 16) (bracketed (ipv6String groups))
                  portRemote (decide (cmd = 2))
            else Except.error (DecodeErr.invalidAddressType (some addressType))
      else Except.error (DecodeErr.unsupportedCommand (some cmd))

/-- The successful result of `readHorseHeader` (Trojan). -/
structure HorseHeader where
  addressRemote : String
  portRemote : Nat
  rawClientData : List Nat
  isUDP : Bool
deriving DecidableEq

/-- The shared tail of `readHorseHeader` (src/unnamed/part_000 lines
194-207): empty-address check, big-endian port at
`addressValueIndex + addressLength` in the sub-buffer, and the residual
`dataBuffer.slice(portIndex + 4)` (two port bytes plus the CR LF
trailer). -/
def horseFinish (dataBuffer : List Nat) (addressType addressValueIndex addressLength : Nat)
    (addressValue : String) (isUDP : Bool) : Except DecodeErr HorseHeader :=
  if addressValue = "" then Except.error (DecodeErr.emptyAddress addressType)
  else
    match readU16BE dataBuffer (addressValueIndex + addressLength) with
    | none => Except.error DecodeErr.rangeError
    | some portRemote =>
      Except.ok
        { addressRemote := addressValue
          portRemote := portRemote
          rawClientData := dataBuffer.drop (addressValueIndex + addressLength + 4)
          isUDP := isUDP }

/-- Model of `readHorseHeader` (src/unnamed/part_000 lines 151-208): skip
the 58-byte preamble, require at least 6 further bytes, then
`cmd(1) | atyp(1) | addr(var) | port(2) | CRLF(2) | residual` with address
tags 1 = IPv4, 3 = Domain, 4 = IPv6 (bracketed); `cmd` 1 = TCP,
3 = UDP. -/
def readHorseHeader (buffer : List Nat) : Except DecodeErr HorseHeader :=
  let dataBuffer := buffer.drop 58
  if dataBuffer.length < 6 then Except.error DecodeErr.invalidTrojanRequest
  else
    let cmd := dataBuffer.getD 0 0
    if cmd = 3 ∨ cmd = 1 then
      let addressType := dataBuffer.getD 1 0
      if addressType = 1 then
        horseFinish dataBuffer 1 2 4 (ipv4String (jsSlice dataBuffer 2 6)) (decide (cmd = 3))
      else if addressType = 3 then
        match (jsSlice dataBuffer 2 3).head? with
        | none => Except.error (DecodeErr.emptyAddress 3)
        | some addressLength =>
          horseFinish dataBuffer 3 3 addressLength
            (decodeBytes (jsSlice dataBuffer 3 (3 + addressLength))) (decide (cmd = 3))
      else if addressType = 4 then
        match u16Groups (jsSlice dataBuffer 2 18) with
        | none => Except.error DecodeErr.rangeError
        | some groups =>
          horseFinish dataBuffer 4 2 16 (bracketed (ipv6String groups)) (decide (cmd = 3))
      else Except.error (DecodeErr.invalidAddressType (some addressType))
    else Except.error (DecodeErr.unsupportedCommand (some cmd))

/-- `WS_READY_STATE_OPEN` from `config.js`. -/
def WS_READY_STATE_OPEN : Nat := 1

/-- `WS_READY_STATE_CLOSING` from `config.js`. -/
def WS_READY_STATE_CLOSING : Nat := 2

/-- The unified view of a successful parse that `websocketHandler` consumes
(fields `addressRemote`, `portRemote`, `rawClientData`, `version`,
`isUDP`); `version` is `none` for Shadowsocks and Trojan headers, which
carry no `version` field. -/
structure ProtocolHeader where
  addressRemote : String
  portRemote : Nat
  rawClientData : List Nat
  version : Option (List Nat)
  isUDP : Bool
deriving DecidableEq

def headerOfSs (h : SsHeader) : ProtocolHeader :=
  ⟨h.addressRemote, h.portRemote, h.rawClientData, none, h.isUDP⟩

def headerOfFlash (h : FlashHeader) : ProtocolHeader :=
  ⟨h.addressRemote, h.portRemote, h.rawClientData, some h.version, h.isUDP⟩

def headerOfHorse (h : HorseHeader) : ProtocolHeader :=
  ⟨h.addressRemote, h.portRemote, h.rawClientData, none, h.isUDP⟩

/-- The fatal errors the controller can throw while routing the first
chunk (src/unnamed/part_002 lines 59-82). -/
inductive TunnelError where
  | unknownProtocol
  | decode (e : DecodeErr)
  | udpNotAllowed (port : Nat)
deriving DecidableEq

/-- The controller's decision for the first chunk: raise a fatal error,
hand the chunk to the DNS bridge, or hand the parsed route to the TCP
path.  A `fatal` outcome forwards the chunk to no remote. -/
inductive FirstAction where
  | fatal (e : TunnelError)
  | dns (chunk : List Nat) (version : Option (List Nat))
  | tcp (address : String) (port : Nat) (raw : List Nat) (version : Option (List Nat))
deriving DecidableEq

/-- Model of the first-chunk branch of `websocketHandler`'s write handler
(src/unnamed/part_002 lines 56-104): a decode error is thrown; a UDP
header is admitted only on port 53 (entering the DNS path with the raw
chunk and the prelude); everything else goes to `handleTCPOutBound`. -/
def routeFirstChunk (h : Except DecodeErr ProtocolHeader) (chunk : List Nat) : FirstAction :=
  match h with
  | Except.error e => FirstAction.fatal (TunnelError.decode e)
  | Except.ok ph =>
    if ph.isUDP then
      if ph.portRemote = 53 then FirstAction.dns chunk ph.version
      else FirstAction.fatal (TunnelError.udpNotAllowed ph.portRemote)
    else FirstAction.tcp ph.addressRemote ph.portRemote ph.rawClientData ph.version

/-- The full first-chunk pipeline: sniff, decode with the matching
decoder, then route. -/
def processFirstChunk (chunk : List Nat) : FirstAction :=
  match protocolSniffer chunk with
  | Proto.trojan => routeFirstChunk ((readHorseHeader chunk).map headerOfHorse) chunk
  | Proto.vless => routeFirstChunk ((readFlashHeader chunk).map headerOfFlash) chunk
  | Proto.ss => routeFirstChunk ((readSsHeader chunk).map headerOfSs) chunk

/-- One outbound WebSocket frame: either a payload chunk alone, or the
response prelude concatenated with the first payload chunk in a single
frame (`new Blob([header, chunk]).arrayBuffer()`). -/
inductive WSFrame where
  | plain (chunk : List Nat)
  | withPrelude (prelude payload : List Nat)
deriving DecidableEq

/-- The bytes of a frame as sent on the wire. -/
def frameBytes : WSFrame → List Nat
  | WSFrame.plain c => c
  | WSFrame.withPrelude h c => h ++ c

/-- An observable action of the remote-to-WebSocket write handler. -/
inductive WSAction where
  | controllerError
  | send (f : WSFrame)
deriving DecidableEq

/-- Model of one invocation of the `write(chunk, controller)` handler of
`remoteSocketToWS` (src/unnamed/part_002 lines 248-259): when the socket
ready-state is not OPEN, `controller.error(...)` is invoked, but execution
falls through (there is no `return`), so `webSocket.send` is reached in
every case; the pending header is consumed by the first chunk.  Returns
the emitted actions in order and the header value after the call. -/
def rswsWrite (readyState : Nat) (header : Option (List Nat)) (chunk : List Nat) :
    List WSAction × Option (List Nat) :=
  ((if readyState = WS_READY_STATE_OPEN then [] else [WSAction.controllerError]) ++
    [WSAction.send (match header with
      | some h => WSFrame.withPrelude h chunk
      | none => WSFrame.plain chunk)],
   none)

/-- The action trace of the remote-to-WebSocket pipe over the chunks the
remote's readable side delivers (paired with the WebSocket ready-state
observed when each chunk arrives), threading the pending header. -/
def remoteToWSRun (header : Option (List Nat)) : List (Nat × List Nat) → List WSAction
  | [] => []
  | (st, c) :: rest =>
    (rswsWrite st header c).1 ++ remoteToWSRun (rswsWrite st header c).2 rest

/-- The frames actually sent, extracted from an action trace. -/
def wsSendOf (actions : List WSAction) : List WSFrame :=
  actions.filterMap (fun a =>
    match a with
    | WSAction.send f => some f
    | WSAction.controllerError => none)

/-- The outcome of one `remoteSocketToWS` call (src/unnamed/part_002 lines
241-277): the action trace, `hasIncomingData` (set on any write), and
whether the retry closure is invoked afterwards
(`!hasIncomingData && retry`). -/
structure BridgeResult where
  actions : List WSAction
  hasIncomingData : Bool
  retryInvoked : Bool
deriving DecidableEq

/-- Model of `remoteSocketToWS`: `chunks` lists the chunks delivered by
the remote readable before it ended, each with the ready-state seen at
that moment; `retryAvailable` is whether a non-null `retry` closure was
passed. -/
def remoteSocketToWS (responseHeader : Option (List Nat)) (chunks : List (Nat × List Nat))
    (retryAvailable : Bool) : BridgeResult :=
  { actions := remoteToWSRun responseHeader chunks
    hasIncomingData := !chunks.isEmpty
    retryInvoked := chunks.isEmpty && retryAvailable }

/-- Model of `s.split(/[:=-]/)` for the delimiter set of the retry path:
split at every occurrence of a delimiter character, keeping empty
components; the empty string splits to `[""]`. -/
def splitOnDelims (delims : List Char) : List Char → List (List Char)
  | [] => [[]]
  | c :: rest =>
    let r := splitOnDelims delims rest
    if c ∈ delims then [] :: r
    else (c :: r.headD []) :: r.tail

/-- Model of `(prxIP || "").split(/[:=-]/)` (src/unnamed/part_002 line
148). -/
def splitHint (prxIP : String) : List String :=
  (splitOnDelims [':', '=', '-'] prxIP.data).map String.mk

/-- The retry destination (src/unnamed/part_002 lines 148-151):
`proxyAddress || addressRemote` and `proxyPort || portRemote`, where
`proxyAddress` and `proxyPort` are the first two split components.  A
missing (`undefined`) or empty component is falsy and falls back; a
present hint port is passed as a string, the parsed port as a number,
hence the sum type. -/
def retryTarget (prxIP addressRemote : String) (portRemote : Nat) :
    String × (String ⊕ Nat) :=
  let parts := splitHint prxIP
  ((if parts.headD "" = "" then addressRemote else parts.headD ""),
   match parts[1]? with
   | none => Sum.inr portRemote
   | some p => if p = "" then Sum.inr portRemote else Sum.inl p)

/-- One call of `connectAndWrite(address, port)`: the destination and the
bytes written immediately after connecting (always `rawClientData`). -/
structure ConnectAttempt where
  host : String
  port : String ⊕ Nat
  written : List Nat
deriving DecidableEq

/-- The observable outcome of `handleTCPOutBound`: the connection attempts
made, in order, and the action trace towards the WebSocket. -/
structure TcpRun where
  attempts : List ConnectAttempt
  actions : List WSAction
deriving DecidableEq

/-- Model of `handleTCPOutBound` (src/unnamed/part_002 lines 124-165):
connect to the parsed destination and write the residual; bridge with the
retry closure available; if the bridge invokes retry (zero chunks seen),
connect to the hint-derived destination, write the same residual, and
bridge again with no retry closure.  `chunks1` and `chunks2` are the chunk
deliveries of the two connections' readable sides. -/
def handleTCPOutBound (addressRemote : String) (portRemote : Nat) (rawClientData : List Nat)
    (responseHeader : Option (List Nat)) (prxIP : String)
    (chunks1 chunks2 : List (Nat × List Nat)) : TcpRun :=
  let firstAttempt : ConnectAttempt := ⟨addressRemote, Sum.inr portRemote, rawClientData⟩
  let run1 := remoteSocketToWS responseHeader chunks1 true
  if run1.retryInvoked then
    let target := retryTarget prxIP addressRemote portRemote
    let run2 := remoteSocketToWS responseHeader chunks2 false
    ⟨[firstAttempt, ⟨target.1, target.2, rawClientData⟩], run1.actions ++ run2.actions⟩
  else ⟨[firstAttempt], run1.actions⟩

/-- Model of the reply loop of `handleUDPOutbound` (src/unnamed/part_002
lines 181-200): a reply chunk is sent only when the ready-state is OPEN;
the pending prelude is prepended to the first chunk actually sent and then
cleared. -/
def handleUDPOutbound (responseHeader : Option (List Nat)) :
    List (Nat × List Nat) → List WSFrame
  | [] => []
  | (st, c) :: rest =>
    if st = WS_READY_STATE_OPEN then
      (match responseHeader with
        | some h => WSFrame.withPrelude h c
        | none => WSFrame.plain c) :: handleUDPOutbound none rest
    else handleUDPOutbound responseHeader rest

/-- The frames a DNS tunnel sends to the client: `websocketHandler` passes
the prelude (`protocolHeader.version`) only to the `handleUDPOutbound`
call for the first client chunk (src/unnamed/part_002 lines 84-93) and
`null` for every later chunk (line 47); `calls` lists the reply deliveries
of the successive calls. -/
def dnsTunnelFrames (version : Option (List Nat))
    (calls : List (List (Nat × List Nat))) : List WSFrame :=
  match calls with
  | [] => []
  | first :: rest =>
    handleUDPOutbound version first ++ (rest.map (handleUDPOutbound none)).flatten

/-- The teardown steps a fatal-error path can take. -/
inductive TeardownAction where
  | closeWebSocket
  | closeRemote
deriving DecidableEq

/-- Model of `safeCloseWebSocket` (src/unnamed/part_002 lines 279-287):
`socket.close()` is issued only when the ready-state is OPEN or CLOSING,
otherwise nothing happens (so a call on an already-closed socket is a
no-op and cannot throw). -/
def safeCloseWebSocket (readyState : Nat) : List TeardownAction :=
  if readyState = WS_READY_STATE_OPEN ∨ readyState = WS_READY_STATE_CLOSING then
    [TeardownAction.closeWebSocket]
  else []

/-- Model of the teardown after the controller's write handler throws
(decode or parse error, unsupported command, UDP on a port other than 53):
`pipeTo` propagates the destination error backward and cancels the inbound
stream, whose `cancel` callback (src/unnamed/part_002 lines 231-236) runs
`safeCloseWebSocket` unless the stream was already cancelled; the `catch`
on `pipeTo` (lines 114-116) only logs. -/
def controllerFatalTeardown (readyState : Nat) (readableStreamCancel : Bool) :
    List TeardownAction :=
  if readableStreamCancel then [] else safeCloseWebSocket readyState

/-- Model of the teardown after the remote-to-WebSocket pipe rejects (a
remote read error or the write handler's `controller.error`): the `catch`
in `remoteSocketToWS` (src/unnamed/part_002 lines 268-271) runs
`safeCloseWebSocket`. -/
def bridgeFatalTeardown (readyState : Nat) : List TeardownAction :=
  safeCloseWebSocket readyState

theorem hexChar_ne_dash : ∀ k, k < 16 → hexChar k ≠ '-' := by decide

theorem natToHexCore_no_dash :
    ∀ fuel n (acc : List Char), (∀ c ∈ acc, c ≠ '-') →
      ∀ c ∈ natToHexCore fuel n acc, c ≠ '-' := by
  intro fuel
  induction fuel with
  | zero => intro n acc hacc c hc; exact hacc c hc
  | succ f ih =>
    intro n acc hacc c hc
    unfold natToHexCore at hc
    split at hc
    · rcases List.mem_cons.mp hc with h | h
      · exact h ▸ hexChar_ne_dash _ (Nat.mod_lt _ (by omega))
      · exact hacc c h
    · refine ih _ _ ?_ c hc
      intro d hd
      rcases List.mem_cons.mp hd with h | h
      · exact h ▸ hexChar_ne_dash _ (Nat.mod_lt _ (by omega))
      · exact hacc d h

theorem hexByte_no_dash : ∀ n, ∀ c ∈ hexByte n, c ≠ '-' := by
  intro n c hc
  unfold hexByte at hc
  split at hc
  · rcases List.mem_cons.mp hc with h | h
    · subst h; decide
    · exact natToHexCore_no_dash _ _ _ (by intro d hd; cases hd) c h
  · exact natToHexCore_no_dash _ _ _ (by intro d hd; cases hd) c hc

theorem hexFlatten_no_dash (bs : List Nat) :
    ∀ c ∈ (bs.map hexByte).flatten, c ≠ '-' := by
  intro c hc
  rcases List.mem_flatten.mp hc with ⟨l, hl, hcl⟩
  rcases List.mem_map.mp hl with ⟨b, _, rfl⟩
  exact hexByte_no_dash b c hcl

/-- The code's hex rendering contains no dash, so the UUID regular
expression (which demands dashes) can never accept it: the VLESS branch of
the sniffer is dead code. -/
theorem uuidV4Test_hex_false (bs : List Nat) :
    uuidV4Test (arrayBufferToHex bs) = false := by
  unfold uuidV4Test arrayBufferToHex
  show (((bs.map hexByte).flatten.length == 36) && _) = false
  set cs := (bs.map hexByte).flatten with hcs
  by_cases hlen : cs.length = 36
  · have h8lt : 8 < cs.length := by omega
    have h8some : cs[8]? = some (cs.get ⟨8, h8lt⟩) := List.getElem?_eq_getElem h8lt
    have h8mem : cs.get ⟨8, h8lt⟩ ∈ cs := List.getElem_mem h8lt
    have h8 : cs[8]?.getD ' ' ≠ '-' := by
      rw [h8some]
      exact hexFlatten_no_dash bs _ h8mem
    have hall : ((List.range 36).all (fun i =>
        let c := cs.getD i ' '
        if i = 8 ∨ i = 13 ∨ i = 18 ∨ i = 23 then c == '-'
        else if i = 14 then c == '4'
        else if i = 19 then
          (c == '8' || c == '9' || c == 'a' || c == 'b' || c == 'A' || c == 'B')
        else isHexDigitCI c)) = false := by
      rw [Bool.eq_false_iff]
      intro hall
      have h2 := List.all_eq_true.mp hall 8 (List.mem_range.mpr (by omega))
      simp at h2
      exact h8 h2
    rw [hall, Bool.and_false]
  · have hb : (cs.length == 36) = false := by
      cases h36 : cs.length == 36
      · rfl
      · exact absurd (eq_of_beq h36) hlen
    rw [hb, Bool.false_and]

theorem take_sub_append {α : Type} (l : List α) (k : Nat) :
    l.take (l.length - (l.drop k).length) ++ l.drop k = l := by
  rw [List.length_drop]
  rcases Nat.le_total k l.length with hk | hk
  · have h1 : l.length - (l.length - k) = k := by omega
    rw [h1, List.take_append_drop]
  · have h1 : l.length - (l.length - k) = l.length := by omega
    rw [h1, List.take_length, List.drop_eq_nil_of_le hk, List.append_nil]

theorem readU16BE_eq_some {l : List Nat} {p x : Nat} (h : readU16BE l p = some x) :
    ∃ a b, jsSlice l p (p + 2) = [a, b] ∧ x = 256 * a + b := by
  unfold readU16BE at h
  split at h
  · next a b heq =>
    cases h
    exact ⟨a, b, heq, rfl⟩
  · exact Option.noConfusion h

theorem ssFinish_ok {ssBuffer : List Nat} {t vi al : Nat} {addr : String} {h : SsHeader}
    (hok : ssFinish ssBuffer t vi al addr = Except.ok h) :
    h.addressRemote = addr ∧ addr ≠ "" ∧ h.addressType = t ∧
    (∃ a b, jsSlice ssBuffer (vi + al) (vi + al + 2) = [a, b] ∧ h.portRemote = 256 * a + b) ∧
    h.rawClientData = ssBuffer.drop (vi + al + 2) ∧
    h.isUDP = decide (h.portRemote = 53) := by
  unfold ssFinish at hok
  split at hok
  · exact Except.noConfusion hok
  · next hne =>
    split at hok
    · exact Except.noConfusion hok
    · next port hport =>
      obtain ⟨a, b, hsl, hab⟩ := readU16BE_eq_some hport
      cases hok
      exact ⟨rfl, hne, rfl, ⟨a, b, hsl, hab⟩, rfl, rfl⟩

theorem readSsHeader_ok {buf : List Nat} {h : SsHeader}
    (hok : readSsHeader buf = Except.ok h) :
    h.addressRemote ≠ "" ∧ h.isUDP = decide (h.portRemote = 53) ∧
    ∃ k a b, jsSlice buf k (k + 2) = [a, b] ∧ h.portRemote = 256 * a + b ∧
      h.rawClientData = buf.drop (k + 2) := by
  unfold readSsHeader at hok
  split at hok
  · exact Except.noConfusion hok
  · next addressType hhead =>
    split at hok
    · obtain ⟨haddr, hne, _, ⟨a, b, hsl, hab⟩, hraw, hudp⟩ := ssFinish_ok hok
      exact ⟨by rw [haddr]; exact hne, hudp, 5, a, b, hsl, hab, hraw⟩
    · split at hok
      · split at hok
        · exact Except.noConfusion hok
        · next addressLength hL =>
          obtain ⟨haddr, hne, _, ⟨a, b, hsl, hab⟩, hraw, hudp⟩ := ssFinish_ok hok
          exact ⟨by rw [haddr]; exact hne, hudp, 2 + addressLength, a, b, hsl, hab, hraw⟩
      · split at hok
        · split at hok
          · exact Except.noConfusion hok
          · next groups hg =>
            obtain ⟨haddr, hne, _, ⟨a, b, hsl, hab⟩, hraw, hudp⟩ := ssFinish_ok hok
            exact ⟨by rw [haddr]; exact hne, hudp, 17, a, b, hsl, hab, hraw⟩
        · exact Except.noConfusion hok

theorem readSsHeader_badTag {buf : List Nat} {t : Nat} (hh : buf.head? = some t)
    (h1 : t ≠ 1) (h3 : t ≠ 3) (h4 : t ≠ 4) :
    readSsHeader buf = Except.error (DecodeErr.invalidAddressType (some t)) := by
  unfold readSsHeader
  rw [hh]
  simp [h1, h3, h4]

theorem flashFinish_ok {buffer : List Nat} {t di : Nat} {addr : String} {p : Nat} {u : Bool}
    {h : FlashHeader} (hok : flashFinish buffer t di addr p u = Except.ok h) :
    h.addressRemote = addr ∧ addr ≠ "" ∧ h.addressType = t ∧ h.portRemote = p ∧
    h.rawClientData = buffer.drop di ∧ h.version = [buffer.headD 0, 0] ∧ h.isUDP = u := by
  unfold flashFinish at hok
  split at hok
  · exact Except.noConfusion hok
  · next hne =>
    cases hok
    exact ⟨rfl, hne, rfl, rfl, rfl, rfl, rfl⟩

theorem readFlashHeader_ok {buf : List Nat} {h : FlashHeader}
    (hok : readFlashHeader buf = Except.ok h) :
    h.version = [buf.headD 0, 0] ∧ h.addressRemote ≠ "" ∧
    h.isUDP = decide (flashCmd buf = some 2) ∧
    (∃ L, (jsSlice buf 17 18).head? = some L ∧
      ∃ a b, jsSlice buf (18 + L + 1) (18 + L + 1 + 2) = [a, b] ∧
        h.portRemote = 256 * a + b) ∧
    ∃ k, h.rawClientData = buf.drop k := by
  unfold readFlashHeader at hok
  split at hok
  · exact Except.noConfusion hok
  · next optLength hopt =>
    split at hok
    · exact Except.noConfusion hok
    · next cmd hcmd =>
      have hfc : flashCmd buf = some cmd := by
        unfold flashCmd
        simp only [hopt]
        exact hcmd
      split at hok
      · next hc12 =>
        split at hok
        · exact Except.noConfusion hok
        · next portRemote hport =>
          obtain ⟨a, b, hsl, hab⟩ := readU16BE_eq_some hport
          split at hok
          · exact Except.noConfusion hok
          · next addressType hat =>
            have hudp : decide (cmd = 2) = decide (flashCmd buf = some 2) := by
              rw [hfc]
              exact decide_eq_decide.mpr (by simp)
            split at hok
            · obtain ⟨haddr, hne, _, hp, hraw, hver, hu⟩ := flashFinish_ok hok
              exact ⟨hver, by rw [haddr]; exact hne, by rw [hu, hudp],
                ⟨optLength, hopt, a, b, hsl, by rw [hp]; exact hab⟩, ⟨_, hraw⟩⟩
            · split at hok
              · split at hok
                · exact Except.noConfusion hok
                · next addressLength hlen =>
                  obtain ⟨haddr, hne, _, hp, hraw, hver, hu⟩ := flashFinish_ok hok
                  exact ⟨hver, by rw [haddr]; exact hne, by rw [hu, hudp],
                    ⟨optLength, hopt, a, b, hsl, by rw [hp]; exact hab⟩, ⟨_, hraw⟩⟩
              · split at hok
                · split at hok
                  · exact Except.noConfusion hok
                  · next groups hg =>
                    obtain ⟨haddr, hne, _, hp, hraw, hver, hu⟩ := flashFinish_ok hok
                    exact ⟨hver, by rw [haddr]; exact hne, by rw [hu, hudp],
                      ⟨optLength, hopt, a, b, hsl, by rw [hp]; exact hab⟩, ⟨_, hraw⟩⟩
                · exact Except.noConfusion hok
      · exact Except.noConfusion hok

theorem readFlashHeader_cmdErr {buf : List Nat} (h1 : flashCmd buf ≠ some 1)
    (h2 : flashCmd buf ≠ some 2) :
    readFlashHeader buf = Except.error (DecodeErr.unsupportedCommand (flashCmd buf)) := by
  unfold flashCmd at h1 h2
  unfold readFlashHeader flashCmd
  cases hopt : (jsSlice buf 17 18).head? with
  | none => simp only [hopt]
  | some L =>
    cases hcmd : (jsSlice buf (18 + L) (18 + L + 1)).head? with
    | none => simp only [hopt, hcmd]
    | some c =>
      simp only [hopt, hcmd] at h1 h2 ⊢
      have hc1 : c ≠ 1 := fun hh => h1 (by rw [hh])
      have hc2 : c ≠ 2 := fun hh => h2 (by rw [hh])
      rw [if_neg (by omega)]

theorem horseFinish_ok {dataBuffer : List Nat} {t vi al : Nat} {addr : String} {u : Bool}
    {h : HorseHeader} (hok : horseFinish dataBuffer t vi al addr u = Except.ok h) :
    h.addressRemote = addr ∧ addr ≠ "" ∧
    (∃ a b, jsSlice dataBuffer (vi + al) (vi + al + 2) = [a, b] ∧
      h.portRemote = 256 * a + b) ∧
    h.rawClientData = dataBuffer.drop (vi + al + 4) ∧ h.isUDP = u := by
  unfold horseFinish at hok
  split at hok
  · exact Except.noConfusion hok
  · next hne =>
    split at hok
    · exact Except.noConfusion hok
    · next port hport =>
      obtain ⟨a, b, hsl, hab⟩ := readU16BE_eq_some hport
      cases hok
      exact ⟨rfl, hne, ⟨a, b, hsl, hab⟩, rfl, rfl⟩

theorem readHorseHeader_ok_drop {buf : List Nat} {h : HorseHeader}
    (hok : readHorseHeader buf = Except.ok h) :
    h.addressRemote ≠ "" ∧ ∃ k, h.rawClientData = buf.drop k := by
  simp only [readHorseHeader] at hok
  split at hok
  · exact Except.noConfusion hok
  · split at hok
    · split at hok
      · obtain ⟨haddr, hne, _, hraw, _⟩ := horseFinish_ok hok
        rw [List.drop_drop] at hraw
        exact ⟨by rw [haddr]; exact hne, _, hraw⟩
      · split at hok
        · split at hok
          · exact Except.noConfusion hok
          · next addressLength hL =>
            obtain ⟨haddr, hne, _, hraw, _⟩ := horseFinish_ok hok
            rw [List.drop_drop] at hraw
            exact ⟨by rw [haddr]; exact hne, _, hraw⟩
        · split at hok
          · split at hok
            · exact Except.noConfusion hok
            · next groups hg =>
              obtain ⟨haddr, hne, _, hraw, _⟩ := horseFinish_ok hok
              rw [List.drop_drop] at hraw
              exact ⟨by rw [haddr]; exact hne, _, hraw⟩
          · exact Except.noConfusion hok
    · exact Except.noConfusion hok

theorem remoteToWSRun_cons (hdr : Option (List Nat)) (st : Nat) (c : List Nat)
    (rest : List (Nat × List Nat)) :
    remoteToWSRun hdr ((st, c) :: rest) =
      (rswsWrite st hdr c).1 ++ remoteToWSRun none rest := rfl

theorem wsSendOf_append (a b : List WSAction) :
    wsSendOf (a ++ b) = wsSendOf a ++ wsSendOf b :=
  List.filterMap_append a b _

theorem wsSendOf_rswsWrite (st : Nat) (hdr : Option (List Nat)) (c : List Nat) :
    wsSendOf (rswsWrite st hdr c).1 =
      [match hdr with
        | some h => WSFrame.withPrelude h c
        | none => WSFrame.plain c] := by
  cases hdr <;> by_cases hst : st = WS_READY_STATE_OPEN <;>
    simp [rswsWrite, wsSendOf, hst]

theorem sends_none_plain (chunks : List (Nat × List Nat)) :
    ∀ f ∈ wsSendOf (remoteToWSRun none chunks), ∃ c, f = WSFrame.plain c := by
  induction chunks with
  | nil =>
    intro f hf
    simp [remoteToWSRun, wsSendOf] at hf
  | cons sc rest ih =>
    obtain ⟨st, c⟩ := sc
    intro f hf
    rw [remoteToWSRun_cons, wsSendOf_append, wsSendOf_rswsWrite] at hf
    rcases List.mem_append.mp hf with hf | hf
    · rcases List.mem_singleton.mp hf with rfl
      exact ⟨c, rfl⟩
    · exact ih f hf

theorem sends_none_ix (chunks : List (Nat × List Nat)) (i : Nat) (p c : List Nat)
    (h : (wsSendOf (remoteToWSRun none chunks))[i]? = some (WSFrame.withPrelude p c)) :
    False := by
  obtain ⟨c2, hc⟩ := sends_none_plain chunks _ (List.getElem?_mem h)
  exact WSFrame.noConfusion hc

theorem sends_some_ix (hd : List Nat) (chunks : List (Nat × List Nat)) (i : Nat)
    (p c : List Nat)
    (h : (wsSendOf (remoteToWSRun (some hd) chunks))[i]? = some (WSFrame.withPrelude p c)) :
    p = hd ∧ i = 0 := by
  cases chunks with
  | nil => simp [remoteToWSRun, wsSendOf] at h
  | cons sc rest =>
    obtain ⟨st, c0⟩ := sc
    rw [remoteToWSRun_cons, wsSendOf_append, wsSendOf_rswsWrite] at h
    cases i with
    | zero =>
      simp only [List.singleton_append, List.getElem?_cons_zero, Option.some.injEq] at h
      cases h
      exact ⟨rfl, rfl⟩
    | succ j =>
      rw [List.singleton_append, List.getElem?_cons_succ] at h
      exact absurd h (fun hh => sends_none_ix rest j p c hh)

theorem handleTCPOutBound_actions_nil (addr : String) (port : Nat) (raw : List Nat)
    (hdr : Option (List Nat)) (prx : String) (c2 : List (Nat × List Nat)) :
    (handleTCPOutBound addr port raw hdr prx [] c2).actions = remoteToWSRun hdr c2 := by
  simp [handleTCPOutBound, remoteSocketToWS, remoteToWSRun]

theorem handleTCPOutBound_actions_cons (addr : String) (port : Nat) (raw : List Nat)
    (hdr : Option (List Nat)) (prx : String) (sc : Nat × List Nat)
    (c1 c2 : List (Nat × List Nat)) :
    (handleTCPOutBound addr port raw hdr prx (sc :: c1) c2).actions =
      remoteToWSRun hdr (sc :: c1) := by
  simp [handleTCPOutBound, remoteSocketToWS]

theorem udp_none_plain (chunks : List (Nat × List Nat)) :
    ∀ f ∈ handleUDPOutbound none chunks, ∃ c, f = WSFrame.plain c := by
  induction chunks with
  | nil =>
    intro f hf
    simp [handleUDPOutbound] at hf
  | cons sc rest ih =>
    obtain ⟨st, c0⟩ := sc
    intro f hf
    by_cases hst : st = WS_READY_STATE_OPEN
    · simp only [handleUDPOutbound, hst, if_pos] at hf
      rcases List.mem_cons.mp hf with rfl | hf
      · exact ⟨c0, rfl⟩
      · exact ih f hf
    · simp only [handleUDPOutbound, hst, if_neg, if_false] at hf
      exact ih f hf

theorem udp_none_ix (chunks : List (Nat × List Nat)) (i : Nat) (p c : List Nat)
    (h : (handleUDPOutbound none chunks)[i]? = some (WSFrame.withPrelude p c)) : False := by
  obtain ⟨c2, hc⟩ := udp_none_plain chunks _ (List.getElem?_mem h)
  exact WSFrame.noConfusion hc

theorem udp_some_ix (hd : List Nat) (chunks : List (Nat × List Nat)) (i : Nat)
    (p c : List Nat)
    (h : (handleUDPOutbound (some hd) chunks)[i]? = some (WSFrame.withPrelude p c)) :
    p = hd ∧ i = 0 := by
  induction chunks with
  | nil => simp [handleUDPOutbound] at h
  | cons sc rest ih =>
    obtain ⟨st, c0⟩ := sc
    by_cases hst : st = WS_READY_STATE_OPEN
    · simp only [handleUDPOutbound, hst, if_pos] at h
      cases i with
      | zero =>
        simp only [List.getElem?_cons_zero, Option.some.injEq] at h
        cases h
        exact ⟨rfl, rfl⟩
      | succ j =>
        rw [List.getElem?_cons_succ] at h
        exact absurd h (fun hh => udp_none_ix rest j p c hh)
    · simp only [handleUDPOutbound, hst, if_neg, if_false] at h
      exact ih h

theorem udp_flatten_plain (calls : List (List (Nat × List Nat))) (i : Nat) (p c : List Nat)
    (h : ((calls.map (handleUDPOutbound none)).flatten)[i]? = some (WSFrame.withPrelude p c)) :
    False := by
  have hmem := List.getElem?_mem h
  rcases List.mem_flatten.mp hmem with ⟨l, hl, hfl⟩
  rcases List.mem_map.mp hl with ⟨scs, _, rfl⟩
  obtain ⟨c2, hc⟩ := udp_none_plain scs _ hfl
  exact WSFrame.noConfusion hc

theorem trojanMarker_short {l : List Nat} (hl : l.length < 62) : trojanMarker l = false := by
  unfold trojanMarker
  rw [decide_eq_false (by omega), Bool.false_and]

/-- Claim C1: the sniffer's rules as specified — Trojan marker first, then
"the 16 bytes at `[1..17)` rendered as lowercase hex grouped 8-4-4-4-12
match the UUIDv4 pattern ⇒ VLESS", else Shadowsocks.  The code is wrong on
the VLESS rule: `arrayBufferToHex` emits no grouping dashes, so the
dash-demanding regular expression can never match and the VLESS branch is
dead.  On `uuidFrame`, whose bytes `[1, 17)` form a valid UUIDv4 (the
grouped rendering passes the pattern, first conjunct), the sniffer returns
Shadowsocks (second conjunct); the third conjunct shows the code's VLESS
test rejects every input whatsoever. -/
theorem C1_sniffer_uuid_dead_branch :
    uuidV4Test (groupedUuidHex (jsSlice uuidFrame 1 17)) = true
  ∧ protocolSniffer uuidFrame = Proto.ss
  ∧ ∀ bs : List Nat, uuidV4Test (arrayBufferToHex bs) = false :=
  ⟨by rfl, by rfl, uuidV4Test_hex_false⟩

/-- Claim C10: the sniffer is total — every buffer, of any length, is
classified as one of the three protocol kinds; a buffer shorter than 62
bytes can never be Trojan (the marker test fails), and a buffer shorter
than 17 bytes (its slices clamped) falls through both tests to
Shadowsocks. -/
theorem C10_sniffer_total :
    (∀ l : List Nat, protocolSniffer l = Proto.trojan ∨ protocolSniffer l = Proto.vless ∨
        protocolSniffer l = Proto.ss)
  ∧ (∀ l : List Nat, l.length < 62 → protocolSniffer l ≠ Proto.trojan)
  ∧ (∀ l : List Nat, l.length < 17 → protocolSniffer l = Proto.ss) := by
  refine ⟨?_, ?_, ?_⟩
  · intro l
    unfold protocolSniffer
    split
    · exact Or.inl rfl
    · split
      · exact Or.inr (Or.inl rfl)
      · exact Or.inr (Or.inr rfl)
  · intro l hl
    unfold protocolSniffer
    rw [trojanMarker_short hl, uuidV4Test_hex_false]
    simp
  · intro l hl
    unfold protocolSniffer
    rw [trojanMarker_short (by omega), uuidV4Test_hex_false]
    simp

theorem C10_sniffer_total_witness : protocolSniffer [] = Proto.ss :=
  C10_sniffer_total.2.2 [] (by decide)

/-- Claim C2: whenever a decoder succeeds, the header bytes it consumed
(the prefix of the frame up to the residual, which for Trojan includes the
two CR LF trailer bytes after the port) concatenated with the returned
residual reproduce the original frame exactly; the residual is the
disjoint suffix and may be empty (last conjunct: an SS frame ending at the
port parses with an empty residual). -/
theorem C2_header_residual_roundtrip :
    (∀ (buf : List Nat) (h : SsHeader), readSsHeader buf = Except.ok h →
        buf.take (buf.length - h.rawClientData.length) ++ h.rawClientData = buf)
  ∧ (∀ (buf : List Nat) (h : FlashHeader), readFlashHeader buf = Except.ok h →
        buf.take (buf.length - h.rawClientData.length) ++ h.rawClientData = buf)
  ∧ (∀ (buf : List Nat) (h : HorseHeader), readHorseHeader buf = Except.ok h →
        buf.take (buf.length - h.rawClientData.length) ++ h.rawClientData = buf)
  ∧ (readSsHeader [1, 10, 0, 0, 1, 0, 80]).map (fun h => h.rawClientData) =
      Except.ok [] := by
  refine ⟨?_, ?_, ?_, by rfl⟩
  · intro buf h hok
    obtain ⟨_, _, k, a, b, _, _, hraw⟩ := readSsHeader_ok hok
    rw [hraw]
    exact take_sub_append buf (k + 2)
  · intro buf h hok
    obtain ⟨_, _, _, _, k, hraw⟩ := readFlashHeader_ok hok
    rw [hraw]
    exact take_sub_append buf k
  · intro buf h hok
    obtain ⟨_, k, hraw⟩ := readHorseHeader_ok_drop hok
    rw [hraw]
    exact take_sub_append buf k

theorem C2_header_residual_roundtrip_witness :
    ([1, 10, 0, 0, 1, 0, 80, 72, 73] : List Nat).take
        (([1, 10, 0, 0, 1, 0, 80, 72, 73] : List Nat).length - ([72, 73] : List Nat).length)
      ++ [72, 73] = [1, 10, 0, 0, 1, 0, 80, 72, 73] :=
  C2_header_residual_roundtrip.1 [1, 10, 0, 0, 1, 0, 80, 72, 73]
    ⟨"10.0.0.1", 1, 80, [72, 73], false⟩ rfl

/-- Claim C7: the Shadowsocks decoder fails with an invalid-address-type
error on any tag other than 1, 3 or 4 (first conjunct); on success the
decoded address is non-empty, `isUDP` is exactly `port = 53`, and the port
is the big-endian 16-bit value read immediately after the address with the
residual being everything after it (second conjunct).  The concrete frames
check the IPv4 dotted rendering (and the claim's scenario
`01 0A 00 00 01 00 50 48 49`), the bracket-free colon-separated IPv6
rendering, and the length-prefixed domain case. -/
theorem C7_ss_decoder :
    (∀ (buf : List Nat) (t : Nat), buf.head? = some t → t ≠ 1 → t ≠ 3 → t ≠ 4 →
        readSsHeader buf = Except.error (DecodeErr.invalidAddressType (some t)))
  ∧ (∀ (buf : List Nat) (h : SsHeader), readSsHeader buf = Except.ok h →
        h.addressRemote ≠ "" ∧ h.isUDP = decide (h.portRemote = 53) ∧
        ∃ k a b, jsSlice buf k (k + 2) = [a, b] ∧ h.portRemote = 256 * a + b ∧
          h.rawClientData = buf.drop (k + 2))
  ∧ readSsHeader [1, 10, 0, 0, 1, 0, 80, 72, 73] =
      Except.ok ⟨"10.0.0.1", 1, 80, [72, 73], false⟩
  ∧ readSsHeader (4 :: (List.replicate 16 0 ++ [0, 53])) =
      Except.ok ⟨"0:0:0:0:0:0:0:0", 4, 53, [], true⟩
  ∧ readSsHeader [3, 3, 102, 111, 111, 0, 80] = Except.ok ⟨"foo", 3, 80, [], false⟩ :=
  ⟨fun _ _ hh h1 h3 h4 => readSsHeader_badTag hh h1 h3 h4,
   fun _ _ hok => readSsHeader_ok hok,
   by rfl, by rfl, by rfl⟩

theorem C7_ss_decoder_witness :
    readSsHeader [9] = Except.error (DecodeErr.invalidAddressType (some 9)) :=
  C7_ss_decoder.1 [9] 9 rfl (by decide) (by decide) (by decide)

/-- Claim C6: the VLESS decoder reads the command at offset
`18 + optLen` (`flashCmd`) and fails with an unsupported-command error
whenever it is neither 1 nor 2 (first conjunct); on success the response
prelude is `[buffer[0], 0]`, the address is non-empty, `isUDP` holds
exactly for command 2, the port is the big-endian 16-bit value right after
the command and the residual is a suffix of the frame (second conjunct).
The concrete frames check the claim's scenario-3 frame (domain "foo",
port 443, residual "PAY", prelude `[0, 0]`, not UDP), the bracketed IPv6
rendering for tag 3, and the unsupported command 5. -/
theorem C6_vless_decoder :
    (∀ buf : List Nat, flashCmd buf ≠ some 1 → flashCmd buf ≠ some 2 →
        readFlashHeader buf = Except.error (DecodeErr.unsupportedCommand (flashCmd buf)))
  ∧ (∀ (buf : List Nat) (h : FlashHeader), readFlashHeader buf = Except.ok h →
        h.version = [buf.headD 0, 0] ∧ h.addressRemote ≠ "" ∧
        h.isUDP = decide (flashCmd buf = some 2) ∧
        (∃ L, (jsSlice buf 17 18).head? = some L ∧
          ∃ a b, jsSlice buf (18 + L + 1) (18 + L + 1 + 2) = [a, b] ∧
            h.portRemote = 256 * a + b) ∧
        ∃ k, h.rawClientData = buf.drop k)
  ∧ readFlashHeader uuidFrame = Except.ok ⟨"foo", 2, 443, [80, 65, 89], [0, 0], false⟩
  ∧ readFlashHeader
        (0 :: (List.replicate 16 7 ++ ([0, 1, 1, 187, 3] ++ (List.replicate 16 0 ++ [9])))) =
      Except.ok ⟨"[0:0:0:0:0:0:0:0]", 3, 443, [9], [0, 0], false⟩
  ∧ readFlashHeader (0 :: (List.replicate 16 7 ++ [0, 5])) =
      Except.error (DecodeErr.unsupportedCommand (some 5)) :=
  ⟨fun _ h1 h2 => readFlashHeader_cmdErr h1 h2,
   fun _ _ hok => readFlashHeader_ok hok,
   by rfl, by rfl, by rfl⟩

theorem C6_vless_decoder_witness :
    readFlashHeader [] = Except.error (DecodeErr.unsupportedCommand (flashCmd [])) :=
  C6_vless_decoder.1 [] (by decide) (by decide)

/-- Claim C3: per tunnel the retry is invoked at most once (never more
than two connection attempts), exactly when the initial connection's
readable side ended after delivering nothing; the retry connects to the
hint host (falling back to the parsed address when empty) and the hint
port (falling back to the parsed port when empty or missing), where the
hint is the upstream string split on `:`, `=` and `-`; it writes the same
residual bytes; and a bridge run without the retry closure never invokes a
retry, whatever the second connection delivers.  The last conjunct checks
the spec's scenario hint `example.org-8443`. -/
theorem C3_retry_once_and_target :
    ∀ (addr : String) (port : Nat) (raw : List Nat) (hdr : Option (List Nat))
      (prx : String) (c1 c2 : List (Nat × List Nat)),
      (handleTCPOutBound addr port raw hdr prx c1 c2).attempts.length ≤ 2
    ∧ ((handleTCPOutBound addr port raw hdr prx c1 c2).attempts.length = 2 ↔ c1 = [])
    ∧ (c1 = [] →
        (handleTCPOutBound addr port raw hdr prx c1 c2).attempts =
          [⟨addr, Sum.inr port, raw⟩,
           ⟨(retryTarget prx addr port).1, (retryTarget prx addr port).2, raw⟩])
    ∧ (c1 ≠ [] →
        (handleTCPOutBound addr port raw hdr prx c1 c2).attempts =
          [⟨addr, Sum.inr port, raw⟩])
    ∧ (remoteSocketToWS hdr c2 false).retryInvoked = false
    ∧ retryTarget "example.org-8443" "1.2.3.4" 443 = ("example.org", Sum.inl "8443") := by
  intro addr port raw hdr prx c1 c2
  cases c1 with
  | nil =>
    refine ⟨?_, ?_, ?_, ?_, ?_, by rfl⟩
    · simp [handleTCPOutBound, remoteSocketToWS]
    · simp [handleTCPOutBound, remoteSocketToWS]
    · intro _
      simp [handleTCPOutBound, remoteSocketToWS]
    · intro hne
      exact absurd rfl hne
    · simp [remoteSocketToWS]
  | cons sc c1' =>
    refine ⟨?_, ?_, ?_, ?_, ?_, by rfl⟩
    · simp [handleTCPOutBound, remoteSocketToWS]
    · simp [handleTCPOutBound, remoteSocketToWS]
    · intro h
      exact List.noConfusion h
    · intro _
      simp [handleTCPOutBound, remoteSocketToWS]
    · simp [remoteSocketToWS]

theorem C3_retry_once_and_target_witness :
    (handleTCPOutBound "1.2.3.4" 443 [5] none "example.org-8443" [] [(1, [7])]).attempts =
      [⟨"1.2.3.4", Sum.inr 443, [5]⟩, ⟨"example.org", Sum.inl "8443", [5]⟩] :=
  (C3_retry_once_and_target "1.2.3.4" 443 [5] none "example.org-8443" [] [(1, [7])]).2.2.1 rfl

/-- Claim C4: across one whole tunnel, a frame carrying the response
prelude occurs at most once, only as the very first frame sent to the
client, its prelude is exactly the tunnel's `responsePrelude`, and its
bytes are the prelude concatenated with the payload in a single frame.
The first conjunct covers the TCP path including the one-shot retry (any
sent frame with a prelude forces the tunnel's prelude and position 0); the
second covers the DNS path across all successive `handleUDPOutbound`
calls. -/
theorem C4_prelude_at_most_once :
    (∀ (addr : String) (port : Nat) (raw : List Nat) (hdr : Option (List Nat))
        (prx : String) (c1 c2 : List (Nat × List Nat)) (i : Nat) (p c : List Nat),
        (wsSendOf (handleTCPOutBound addr port raw hdr prx c1 c2).actions)[i]? =
            some (WSFrame.withPrelude p c) →
          hdr = some p ∧ i = 0 ∧ frameBytes (WSFrame.withPrelude p c) = p ++ c)
  ∧ (∀ (ver : Option (List Nat)) (calls : List (List (Nat × List Nat))) (i : Nat)
        (p c : List Nat),
        (dnsTunnelFrames ver calls)[i]? = some (WSFrame.withPrelude p c) →
          ver = some p ∧ i = 0) := by
  constructor
  · intro addr port raw hdr prx c1 c2 i p c h
    have key : ∀ chunks : List (Nat × List Nat),
        (wsSendOf (remoteToWSRun hdr chunks))[i]? = some (WSFrame.withPrelude p c) →
        hdr = some p ∧ i = 0 := by
      intro chunks hh
      cases hdr with
      | none => exact absurd hh (fun x => sends_none_ix chunks i p c x)
      | some hd =>
        obtain ⟨hp, hi⟩ := sends_some_ix hd chunks i p c hh
        exact ⟨by rw [hp], hi⟩
    cases c1 with
    | nil =>
      rw [handleTCPOutBound_actions_nil] at h
      obtain ⟨h1, h2⟩ := key c2 h
      exact ⟨h1, h2, rfl⟩
    | cons sc c1' =>
      rw [handleTCPOutBound_actions_cons] at h
      obtain ⟨h1, h2⟩ := key (sc :: c1') h
      exact ⟨h1, h2, rfl⟩
  · intro ver calls i p c h
    cases calls with
    | nil => simp [dnsTunnelFrames] at h
    | cons first rest =>
      unfold dnsTunnelFrames at h
      by_cases hi : i < (handleUDPOutbound ver first).length
      · rw [List.getElem?_append_left hi] at h
        cases ver with
        | none => exact absurd h (fun x => udp_none_ix first i p c x)
        | some hd =>
          obtain ⟨hp, h0⟩ := udp_some_ix hd first i p c h
          exact ⟨by rw [hp], h0⟩
      · rw [List.getElem?_append_right (by omega)] at h
        exact absurd h (fun x => udp_flatten_plain rest _ p c x)

theorem C4_prelude_at_most_once_witness :
    (some [0, 0] : Option (List Nat)) = some [0, 0] ∧ (0 : Nat) = 0 ∧
      frameBytes (WSFrame.withPrelude [0, 0] [9]) = [0, 0] ++ [9] :=
  C4_prelude_at_most_once.1 "h" 80 [] (some [0, 0]) "" [(1, [9])] [] 0 [0, 0] [9] rfl

/-- Claim C5: for a successfully parsed header with `isUDP` set, the
controller enters the DNS path exactly when the parsed port is 53; for any
other port it raises the fatal UDP error and the chunk is forwarded to no
remote (the action is neither the DNS nor the TCP one). -/
theorem C5_udp_requires_port53 :
    ∀ (ph : ProtocolHeader) (chunk : List Nat), ph.isUDP = true →
      (routeFirstChunk (Except.ok ph) chunk = FirstAction.dns chunk ph.version ↔
        ph.portRemote = 53)
    ∧ (ph.portRemote ≠ 53 →
        routeFirstChunk (Except.ok ph) chunk =
          FirstAction.fatal (TunnelError.udpNotAllowed ph.portRemote)
        ∧ ∀ a p r v, routeFirstChunk (Except.ok ph) chunk ≠ FirstAction.tcp a p r v) := by
  intro ph chunk hudp
  by_cases hp : ph.portRemote = 53
  · refine ⟨?_, fun hne => absurd hp hne⟩
    simp [routeFirstChunk, hudp, hp]
  · refine ⟨?_, fun _ => ⟨?_, ?_⟩⟩
    · simp [routeFirstChunk, hudp, hp]
    · simp [routeFirstChunk, hudp, hp]
    · intro a p r v
      simp [routeFirstChunk, hudp, hp]

theorem C5_udp_requires_port53_witness :
    routeFirstChunk (Except.ok ⟨"h", 80, [], none, true⟩) [9] =
      FirstAction.fatal (TunnelError.udpNotAllowed 80) :=
  ((C5_udp_requires_port53 ⟨"h", 80, [], none, true⟩ [9] rfl).2 (by decide)).1

/-- Claim C8 counterexample: at a concrete fatal error with the WebSocket
OPEN, both fatal-error paths close only the WebSocket; no teardown action
closes the remote socket, contradicting the claim's "and also closes the
remote socket". -/
theorem C8_no_remote_close_counterexample :
    (controllerFatalTeardown WS_READY_STATE_OPEN false).contains
        TeardownAction.closeRemote = false
  ∧ (bridgeFatalTeardown WS_READY_STATE_OPEN).contains TeardownAction.closeRemote = false
  ∧ controllerFatalTeardown WS_READY_STATE_OPEN false = [TeardownAction.closeWebSocket] := by
  decide

/-- Claim C8 (amended): on a fatal error — a decode or parse error,
unsupported command or disallowed UDP port (handled by the inbound
stream's cancel callback), or a remote-side failure (handled by the
bridge's catch) — the tunnel closes the WebSocket safely: the close is
issued exactly when the ready-state is OPEN or CLOSING (and the inbound
stream was not already cancelled), a `safeCloseWebSocket` call on an
already-closed socket being a no-op; neither path ever closes the remote
socket. -/
theorem C8_fatal_close_websocket_only :
    ∀ (st : Nat) (canceled : Bool),
      controllerFatalTeardown st canceled =
        (if canceled = false ∧ (st = WS_READY_STATE_OPEN ∨ st = WS_READY_STATE_CLOSING)
          then [TeardownAction.closeWebSocket] else [])
    ∧ bridgeFatalTeardown st = safeCloseWebSocket st
    ∧ safeCloseWebSocket st =
        (if st = WS_READY_STATE_OPEN ∨ st = WS_READY_STATE_CLOSING
          then [TeardownAction.closeWebSocket] else [])
    ∧ (controllerFatalTeardown st canceled).contains TeardownAction.closeRemote = false
    ∧ (bridgeFatalTeardown st).contains TeardownAction.closeRemote = false := by
  intro st canceled
  refine ⟨?_, rfl, rfl, ?_, ?_⟩
  · cases canceled <;>
      by_cases h : st = WS_READY_STATE_OPEN ∨ st = WS_READY_STATE_CLOSING <;>
        simp [controllerFatalTeardown, safeCloseWebSocket, h]
  · unfold controllerFatalTeardown safeCloseWebSocket
    split_ifs <;> rfl
  · unfold bridgeFatalTeardown safeCloseWebSocket
    split_ifs <;> rfl

/-- Claim C9 counterexample: with the ready-state 3 (CLOSED, in
particular not OPEN), the arriving chunk is still passed to
`webSocket.send` — the send action occurs in the handler's trace — so "that
chunk is not sent on the WebSocket" is false. -/
theorem C9_chunk_still_sent_counterexample :
    WSAction.send (WSFrame.plain [7]) ∈ (rswsWrite 3 none [7]).1 := by
  decide

/-- Claim C9 (amended): whenever a chunk arrives from the remote while
the WebSocket ready-state is not OPEN, the relay stream is aborted —
`controller.error` is the first action — but, because the handler does not
return after erroring the controller, the chunk is nevertheless still
passed to `webSocket.send`. -/
theorem C9_abort_but_send :
    ∀ (st : Nat) (hdr : Option (List Nat)) (chunk : List Nat),
      st ≠ WS_READY_STATE_OPEN →
        (rswsWrite st hdr chunk).1.head? = some WSAction.controllerError
      ∧ WSAction.send (match hdr with
          | some h => WSFrame.withPrelude h chunk
          | none => WSFrame.plain chunk) ∈ (rswsWrite st hdr chunk).1 := by
  intro st hdr chunk hst
  unfold rswsWrite
  rw [if_neg hst]
  refine ⟨rfl, ?_⟩
  cases hdr <;> simp

theorem C9_abort_but_send_witness :
    (rswsWrite 3 none [7]).1.head? = some WSAction.controllerError
  ∧ WSAction.send (WSFrame.plain [7]) ∈ (rswsWrite 3 none [7]).1 :=
  C9_abort_but_send 3 none [7] (by decide)
